import Mathlib

/-!
Shallow embedding of the websocket chat backend (WebSocket handler in
src/unnamed/part_000 and src/utils/mediaDelete.js).

Modelling conventions:
- JS strings that may be `undefined` are modelled as Option String, with
  none standing for undefined. Firestore is configured with
  ignoreUndefinedProperties, so an undefined field is simply absent from
  the stored document; we keep those fields as none.
- JS truthiness on such values: undefined and the empty string are falsy.
- Firestore server timestamps and Date.now are modelled by one logical
  clock (ServerState.now) that advances on each message write; this gives
  the monotone timestamps the code relies on for ordering.
- External calls (cloudinary destroy, admin auth deleteUser) are modelled
  by oracles describing which calls fail; the calls actually issued are
  recorded in the handler output.
- A JS exception that escapes to a catch block is modelled explicitly:
  each handler returns exactly the effects performed before the throw,
  per the source's try/catch structure.
-/

/-- JS truthiness for string-or-undefined values: undefined and "" are falsy. -/
def falsy : Option String → Bool
  | none => true
  | some s => s.isEmpty

/-- JS truthiness, positive form. -/
def truthy (o : Option String) : Bool := !(falsy o)

/-- Abstract model of bcrypt.hash with fixed salt context: an injective tagging
of the plaintext. Only equality behaviour matters to the handlers. -/
def bhash (p : String) : String := "$2b$10$" ++ p

/-- Model of bcrypt.compare: bcrypt rejects when the data argument is
undefined (both arguments are required), which surfaces as a thrown error at
the await; otherwise it resolves to whether the plaintext matches the hash. -/
def bcryptCompare (password : Option String) (hash : String) : Except String Bool :=
  match password with
  | none => Except.error "data and hash arguments required"
  | some p => Except.ok (bhash p == hash)

/-- Resource-type mapping used by both deletion sites:
`msg.type === "audio" ? "video" : "image"`. -/
def mediaResourceType (ty : Option String) : String :=
  if ty == some "audio" then "video" else "image"

/-- One cloudinary.uploader.destroy invocation: the public id and the
resource_type option passed. -/
structure DestroyCall where
  public_id : String
  resource_type : String
deriving DecidableEq

/-- A chat message document as written by the message handler. -/
structure Message where
  id : String
  userId : Option String
  username : Option String
  text : Option String
  replyTo : Option String
  type : Option String
  public_id : Option String
  roomName : Option String
  timestamp : Nat
deriving DecidableEq

/-- A room document: the create handler writes password, createdBy and
createdAt only (createdAt is not read anywhere, so it is omitted here). -/
structure RoomDoc where
  password : Option String
  createdBy : Option String
deriving DecidableEq

/-- JS property read `data.owner` on a room document: the create handler
writes only password, createdBy and createdAt, so the owner property is
always undefined. -/
def RoomDoc.owner (_ : RoomDoc) : Option String := none

/-- A user profile document; only public_id is read by the websocket code. -/
structure UserDoc where
  public_id : Option String
  username : Option String
deriving DecidableEq

/-- One entry of the broadcast room list:
name, private = !!password, createdBy. -/
structure RoomInfo where
  name : String
  privateFlag : Bool
  createdBy : Option String
deriving DecidableEq

/-- Outbound JSON envelopes. The error envelope carries the action-scoped
boolean tags exactly as the source does: the create-collision error is
sent with create:true, join errors with join:true, and the delete-room
permission error with neither tag. -/
inductive Envelope where
  | roomsUpdated (rooms : List RoomInfo)
  | createSuccess (roomName : Option String)
  | joinSuccess (roomName : Option String) (messages : List Message)
  | error (createTag : Bool) (joinTag : Bool) (message : String)
  | message (m : Message)
  | messageDeleted (id : Option String)
  | deleteSuccess
deriving DecidableEq

/-- The durable state visible to the websocket handlers: the rooms
collection, the flat set of message documents keyed by their room, the
users collection, and the logical clock. -/
structure ServerState where
  rooms : List (String × RoomDoc)
  msgs : List (String × Message)
  users : List (String × UserDoc)
  now : Nat
deriving DecidableEq

/-- Outcome of admin.auth().deleteUser. -/
inductive AuthRes where
  | ok
  | notFound
  | otherError
deriving DecidableEq

/-- Oracles for the external collaborators: which cloudinary destroys fail
(keyed by public id) and what the identity service answers per uid. -/
structure Oracles where
  destroyFails : String → Bool
  auth : String → AuthRes

/-- Room lookup by document id. -/
def getRoom (s : ServerState) (name : String) : Option RoomDoc :=
  (s.rooms.find? (fun p => p.1 == name)).map (fun p => p.2)

/-- Write a room document (create path: the name is known absent, but we
model set semantics: replace any existing document of that id). -/
def putRoom (s : ServerState) (name : String) (d : RoomDoc) : ServerState :=
  { s with rooms := s.rooms.filter (fun p => !(p.1 == name)) ++ [(name, d)] }

/-- Delete the room document only (roomRef.delete()). -/
def deleteRoomDoc (s : ServerState) (name : String) : ServerState :=
  { s with rooms := s.rooms.filter (fun p => !(p.1 == name)) }

/-- The messages of a room, in insertion order. -/
def roomMsgs (s : ServerState) (name : String) : List Message :=
  (s.msgs.filter (fun p => p.1 == name)).map (fun p => p.2)

/-- Message lookup by room and document id. -/
def getMessage (s : ServerState) (name id : String) : Option Message :=
  (s.msgs.find? (fun p => p.1 == name && p.2.id == id)).map (fun p => p.2)

/-- messagesRef.doc(id).set(m): replace any document at that path, append. -/
def addMessage (s : ServerState) (name : String) (m : Message) : ServerState :=
  { s with
    msgs := s.msgs.filter (fun p => !(p.1 == name && p.2.id == m.id)) ++ [(name, m)] }

/-- messageRef.delete(): remove the document at rooms/name/messages/id. -/
def removeMessage (s : ServerState) (name id : String) : ServerState :=
  { s with msgs := s.msgs.filter (fun p => !(p.1 == name && p.2.id == id)) }

/-- Batch-delete of all message documents of a room. -/
def removeRoomMessages (s : ServerState) (name : String) : ServerState :=
  { s with msgs := s.msgs.filter (fun p => !(p.1 == name)) }

/-- admin.firestore().recursiveDelete(roomRef): room document and all its
message subdocuments are removed. -/
def recursiveDeleteRoom (s : ServerState) (name : String) : ServerState :=
  deleteRoomDoc (removeRoomMessages s name) name

/-- User profile lookup. -/
def getUser (s : ServerState) (uid : String) : Option UserDoc :=
  (s.users.find? (fun p => p.1 == uid)).map (fun p => p.2)

/-- users.doc(uid).delete(). -/
def removeUser (s : ServerState) (uid : String) : ServerState :=
  { s with users := s.users.filter (fun p => !(p.1 == uid)) }

/-- The rooms-updated envelope computed by sendRoomList from the current
rooms collection. -/
def sendRoomListEnv (s : ServerState) : Envelope :=
  Envelope.roomsUpdated
    (s.rooms.map (fun p => { name := p.1, privateFlag := truthy p.2.password,
                             createdBy := p.2.createdBy }))

/-- The effects of handling one inbound event: the resulting durable state,
envelopes sent to the sender only (ws.send), envelopes pushed to every open
connection, the cloudinary destroy calls issued and the auth deleteUser
calls issued. -/
structure Out where
  state : ServerState
  sent : List Envelope
  broadcast : List Envelope
  destroys : List DestroyCall
  authDeletes : List String
deriving DecidableEq

/-- A silently dropped event: no reply, no broadcast, no external calls,
state unchanged. -/
def noEffects (s : ServerState) : Out :=
  { state := s, sent := [], broadcast := [], destroys := [], authDeletes := [] }

/-- src/utils/mediaDelete.js: iterate over the message documents; skip a
message whose public_id is falsy; otherwise issue one destroy with the
audio-to-video resource mapping inside a per-iteration try/catch that
turns a destroy failure into a log line and continues. The Except result
records whether the function as a whole raises; returns the destroy calls
issued and the failure log lines. -/
def deleteMediaByMessages (fails : String → Bool) :
    List Message → Except String (List DestroyCall × List String)
  | [] => Except.ok ([], [])
  | m :: rest =>
    match m.public_id with
    | none => deleteMediaByMessages fails rest
    | some pid =>
      if pid.isEmpty then deleteMediaByMessages fails rest
      else
        let call : DestroyCall := ⟨pid, mediaResourceType m.type⟩
        let logs : List String :=
          if fails pid then ["Failed to delete " ++ pid] else []
        match deleteMediaByMessages fails rest with
        | Except.ok (calls, more) => Except.ok (call :: calls, logs ++ more)
        | Except.error e => Except.error e

/-- create handler (part_000:179-202). Guard: returns when roomName and uid
are BOTH falsy; with a falsy roomName and truthy uid, doc(roomName) throws
and the outer catch drops the event. Otherwise: existence check, write of
password hash / createdBy / timestamp on the absent path with room-list
broadcast and create-success reply, or a create-tagged collision error. -/
def handleCreate (s : ServerState) (roomName uid password : Option String) : Out :=
  if falsy roomName && falsy uid then noEffects s
  else if falsy roomName then noEffects s
  else
    let name := roomName.getD ""
    match getRoom s name with
    | none =>
      let doc : RoomDoc :=
        { password := if falsy password then none else some (bhash (password.getD "")),
          createdBy := uid }
      let s' := putRoom s name doc
      { state := s', sent := [Envelope.createSuccess roomName],
        broadcast := [sendRoomListEnv s'], destroys := [], authDeletes := [] }
    | some _ =>
      { state := s, sent := [Envelope.error true false "Room already exist !"],
        broadcast := [], destroys := [], authDeletes := [] }

/-- join handler (part_000:205-243). Absent room: join-tagged error. Password
room: bcrypt.compare throws on an undefined password (outer catch, silent
drop); a mismatch gives the join-tagged incorrect-password error. Success:
messages ordered by timestamp ascending sent to the sender only. -/
def handleJoin (s : ServerState) (roomName password : Option String) : Out :=
  if falsy roomName then noEffects s
  else
    let name := roomName.getD ""
    match getRoom s name with
    | none =>
      { state := s, sent := [Envelope.error false true "Room doesn't exist."],
        broadcast := [], destroys := [], authDeletes := [] }
    | some room =>
      let success : Out :=
        { state := s,
          sent := [Envelope.joinSuccess roomName
                    (List.insertionSort
                      (fun a b => a.timestamp ≤ b.timestamp) (roomMsgs s name))],
          broadcast := [], destroys := [], authDeletes := [] }
      if truthy room.password then
        match bcryptCompare password (room.password.getD "") with
        | Except.error _ => noEffects s
        | Except.ok matched =>
          if !matched then
            { state := s, sent := [Envelope.error false true "Incorrect password."],
              broadcast := [], destroys := [], authDeletes := [] }
          else success
      else success

/-- message handler (part_000:246-280). Silent no-op when the room is
absent; otherwise builds the message with id = Date.now().toString() and a
server timestamp (one logical clock here), stores it, re-reads it and
broadcasts it to every connected client. -/
def handleMessage (s : ServerState)
    (roomName uid username text replyTo ty public_id : Option String) : Out :=
  if falsy roomName then noEffects s
  else
    let name := roomName.getD ""
    match getRoom s name with
    | none => noEffects s
    | some _ =>
      let newMsg : Message :=
        { id := toString s.now, userId := uid, username := username, text := text,
          replyTo := replyTo,
          type := if falsy ty then none else ty,
          public_id := if falsy public_id then none else public_id,
          roomName := roomName, timestamp := s.now }
      let s' := { addMessage s name newMsg with now := s.now + 1 }
      { state := s', sent := [], broadcast := [Envelope.message newMsg],
        destroys := [], authDeletes := [] }

/-- delete-message handler (part_000:283-324). The whole body is inside a
try whose catch only logs: a falsy roomName or msgId makes doc() throw and
an absent message makes data().userId throw, both silently dropped. For an
existing message, proceeds only when the author equals uid (undefined
equals undefined under ===): issues one destroy (failure caught and
logged) when the message carries a media id, deletes the record and
replies message-deleted to the sender. Non-author: no effect at all. -/
def handleDeleteMessage (s : ServerState) (roomName msgId uid : Option String) : Out :=
  if falsy roomName || falsy msgId then noEffects s
  else
    let name := roomName.getD ""
    let mid := msgId.getD ""
    match getMessage s name mid with
    | none => noEffects s
    | some m =>
      if m.userId == uid then
        let destroys : List DestroyCall :=
          if truthy m.public_id then
            [⟨m.public_id.getD "", mediaResourceType m.type⟩]
          else []
        { state := removeMessage s name mid,
          sent := [Envelope.messageDeleted msgId], broadcast := [],
          destroys := destroys, authDeletes := [] }
      else noEffects s

/-- delete-room handler (part_000:327-362). A falsy roomName makes doc()
throw into the local catch; an absent room is a silent return. The guard
compares roomDoc.data().owner with uid — the create handler never writes
an owner field, so the read is undefined: any defined uid takes the
permission-error branch, and only an undefined uid passes. On the pass
branch: media cascade over all messages, batch message delete, room doc
delete, room-list broadcast. -/
def handleDeleteRoom (o : Oracles) (s : ServerState) (roomName uid : Option String) : Out :=
  if falsy roomName then noEffects s
  else
    let name := roomName.getD ""
    match getRoom s name with
    | none => noEffects s
    | some room =>
      if !(RoomDoc.owner room == uid) then
        { state := s,
          sent := [Envelope.error false false "Only the creator can delete this room."],
          broadcast := [], destroys := [], authDeletes := [] }
      else
        match deleteMediaByMessages o.destroyFails (roomMsgs s name) with
        | Except.error _ => noEffects s
        | Except.ok (calls, _) =>
          let s' := deleteRoomDoc (removeRoomMessages s name) name
          { state := s', sent := [], broadcast := [sendRoomListEnv s'],
            destroys := calls, authDeletes := [] }

/-- The per-room loop of the delete-account handler: for each room created
by the uid, media cascade over its messages then recursiveDelete of the
room. A raise from the cascade would escape to the outer catch; the
cascade in fact never raises. -/
def accountCascade (fails : String → Bool) :
    ServerState → List String → Except String (ServerState × List DestroyCall)
  | s, [] => Except.ok (s, [])
  | s, n :: rest =>
    match deleteMediaByMessages fails (roomMsgs s n) with
    | Except.error e => Except.error e
    | Except.ok (calls, _) =>
      match accountCascade fails (recursiveDeleteRoom s n) rest with
      | Except.error e => Except.error e
      | Except.ok (s', more) => Except.ok (s', calls ++ more)

/-- delete-account handler (part_000:365-428). Falsy uid: silent return.
Auth delete tolerates not-found; any other auth error rethrows into the
catch at 424 and stops the flow. A missing profile makes data().public_id
throw (flow stops, auth already deleted). If the avatar destroy fails, the
catch block at 394 logs err.message with err unbound in that scope: the
resulting ReferenceError escapes to the catch at 424, so the flow stops
before the profile delete. Otherwise: profile delete, per-room cascade over
rooms with createdBy == uid, delete-success reply, room-list broadcast. -/
def handleDeleteAccount (o : Oracles) (s : ServerState) (uid : Option String) : Out :=
  if falsy uid then noEffects s
  else
    let u := uid.getD ""
    match o.auth u with
    | AuthRes.otherError =>
      { state := s, sent := [], broadcast := [], destroys := [], authDeletes := [u] }
    | _ =>
      match getUser s u with
      | none =>
        { state := s, sent := [], broadcast := [], destroys := [], authDeletes := [u] }
      | some user =>
        let avatarCalls : List DestroyCall :=
          if truthy user.public_id then [⟨user.public_id.getD "", "image"⟩] else []
        if truthy user.public_id && o.destroyFails (user.public_id.getD "") then
          { state := s, sent := [], broadcast := [], destroys := avatarCalls,
            authDeletes := [u] }
        else
          let s1 := removeUser s u
          let owned := (s1.rooms.filter (fun p => p.2.createdBy == some u)).map
            (fun p => p.1)
          match accountCascade o.destroyFails s1 owned with
          | Except.error _ =>
            { state := s1, sent := [], broadcast := [], destroys := avatarCalls,
              authDeletes := [u] }
          | Except.ok (s2, calls) =>
            { state := s2, sent := [Envelope.deleteSuccess],
              broadcast := [sendRoomListEnv s2],
              destroys := avatarCalls ++ calls, authDeletes := [u] }

/-- Inbound actions after JSON parsing and field destructuring. -/
inductive Event where
  | create (roomName uid password : Option String)
  | join (roomName password : Option String)
  | message (roomName uid username text replyTo ty public_id : Option String)
  | deleteMessage (roomName msgId uid : Option String)
  | deleteRoom (roomName uid : Option String)
  | deleteAccount (uid : Option String)
deriving DecidableEq

/-- Dispatch of one inbound event to its handler. -/
def handle (o : Oracles) (s : ServerState) : Event → Out
  | Event.create roomName uid password => handleCreate s roomName uid password
  | Event.join roomName password => handleJoin s roomName password
  | Event.message rn uid un tx rt ty pid => handleMessage s rn uid un tx rt ty pid
  | Event.deleteMessage rn mid uid => handleDeleteMessage s rn mid uid
  | Event.deleteRoom rn uid => handleDeleteRoom o s rn uid
  | Event.deleteAccount uid => handleDeleteAccount o s uid

/-- Sequential handling of a list of events (the single-threaded server
loop), returning the final durable state. -/
def run (o : Oracles) (s : ServerState) : List Event → ServerState
  | [] => s
  | e :: rest => run o (handle o s e).state rest

/-- The empty initial state. -/
def initState : ServerState := { rooms := [], msgs := [], users := [], now := 0 }

/-- Specification-side description of the one destroy call a message
contributes to a cascade: none when its public_id is falsy, otherwise one
call for that id with the audio-to-video mapping. Used to state what
deleteMediaByMessages issues. -/
def specMediaCall (m : Message) : Option DestroyCall :=
  match m.public_id with
  | none => none
  | some pid =>
    if pid.isEmpty then none else some ⟨pid, mediaResourceType m.type⟩

/-- Specification-side description of the log lines a message contributes:
one failure line exactly when its destroy was attempted and failed. -/
def specMediaLogs (fails : String → Bool) (m : Message) : List String :=
  match m.public_id with
  | none => []
  | some pid =>
    if pid.isEmpty then [] else
    if fails pid then ["Failed to delete " ++ pid] else []

/-- Clock invariant of reachable states: stored message documents appear in
strictly increasing timestamp order (message writes use the monotone
clock), and every stored timestamp is below the clock. -/
def timesOk (s : ServerState) : Prop :=
  s.msgs.Pairwise (fun a b => a.2.timestamp < b.2.timestamp) ∧
  ∀ p ∈ s.msgs, p.2.timestamp < s.now

/-- An oracle under which no external call fails. -/
def o0 : Oracles := { destroyFails := fun _ => false, auth := fun _ => AuthRes.ok }

/-- An oracle under which only the destroy of public id av1 fails. -/
def oFailAv : Oracles :=
  { destroyFails := fun pid => pid == "av1", auth := fun _ => AuthRes.ok }

/-- Concrete trace: u1 creates public room lobby, then sends one message. -/
def trC6 : List Event :=
  [Event.create (some "lobby") (some "u1") none,
   Event.message (some "lobby") (some "u1") (some "alice") (some "hi") none none none]

/-- The message document the trC6 trace stores. -/
def msgC6 : Message :=
  { id := "0", userId := some "u1", username := some "alice", text := some "hi",
    replyTo := none, type := none, public_id := none, roomName := some "lobby",
    timestamp := 0 }

/-- Concrete state for the delete-account flow: a profile for u1 carrying
avatar media av1, and one room created by u1 holding one message. -/
def sC2 : ServerState :=
  { rooms := [("lobby", { password := none, createdBy := some "u1" })],
    msgs := [("lobby", { id := "0", userId := some "u1", username := some "alice",
                         text := some "hi", replyTo := none, type := none,
                         public_id := none, roomName := some "lobby", timestamp := 0 })],
    users := [("u1", { public_id := some "av1", username := some "alice" })],
    now := 1 }

/-- An audio message carrying media id aud9, authored by u1. -/
def msgC4 : Message :=
  { id := "7", userId := some "u1", username := some "alice", text := none,
    replyTo := none, type := some "audio", public_id := some "aud9",
    roomName := some "lobby", timestamp := 0 }

/-- Concrete state holding msgC4 in room lobby. -/
def sC4 : ServerState :=
  { rooms := [("lobby", { password := none, createdBy := some "u1" })],
    msgs := [("lobby", msgC4)], users := [], now := 1 }

/-- Concrete state with one password-protected room. -/
def sC10 : ServerState :=
  { rooms := [("vault", { password := some (bhash "pw1"), createdBy := some "u1" })],
    msgs := [], users := [], now := 0 }

/-- The media cascade never raises and issues exactly the per-message calls
and failure logs, independently of which destroys fail. -/
theorem mediaCascade_spec (fails : String → Bool) : ∀ msgs : List Message,
    deleteMediaByMessages fails msgs =
      Except.ok (msgs.filterMap specMediaCall, (msgs.map (specMediaLogs fails)).flatten)
  | [] => rfl
  | m :: rest => by
    have ih := mediaCascade_spec fails rest
    unfold deleteMediaByMessages
    cases hpid : m.public_id with
    | none => simp [ih, List.filterMap_cons, specMediaCall, specMediaLogs, hpid]
    | some pid =>
      by_cases he : pid.isEmpty
      · simp [he, ih, List.filterMap_cons, specMediaCall, specMediaLogs, hpid]
      · simp [he, ih, List.filterMap_cons, specMediaCall, specMediaLogs, hpid]

/-- A freshly put room document is found under its name. -/
theorem getRoom_putRoom (s : ServerState) (n : String) (d : RoomDoc) :
    getRoom (putRoom s n d) n = some d := by
  unfold getRoom putRoom
  simp only []
  induction s.rooms with
  | nil => simp
  | cons p rest ih =>
    by_cases hp : p.1 == n
    · simp [List.filter_cons, hp]
    · simp [List.filter_cons, hp]

/-- After removeMessage, the message is no longer found. -/
theorem getMessage_removeMessage (s : ServerState) (n i : String) :
    getMessage (removeMessage s n i) n i = none := by
  unfold getMessage removeMessage
  have hfind : List.find? (fun p => p.1 == n && p.2.id == i)
      (s.msgs.filter fun p => !(p.1 == n && p.2.id == i)) = none := by
    rw [List.find?_eq_none]
    intro x hx
    have h2 := (List.mem_filter.mp hx).2
    simp only [Bool.not_eq_true'] at h2
    simp [h2]
  simp [hfind]
  tauto

/-- Any filtering of the message store preserves the clock invariant. -/
theorem timesOk_filter (s : ServerState) (q : String × Message → Bool)
    (h : timesOk s) : timesOk { s with msgs := s.msgs.filter q } := by
  constructor
  · exact List.Pairwise.sublist (List.filter_sublist s.msgs) h.1
  · intro p hp
    exact h.2 p (List.mem_of_mem_filter hp)

/-- Appending a message stamped at the current clock and advancing the
clock preserves the invariant. -/
theorem timesOk_addMessage (s : ServerState) (name : String) (m : Message)
    (hm : m.timestamp = s.now) (h : timesOk s) :
    timesOk { addMessage s name m with now := s.now + 1 } := by
  constructor
  · simp only [addMessage]
    rw [List.pairwise_append]
    refine ⟨List.Pairwise.sublist (List.filter_sublist s.msgs) h.1,
      List.pairwise_singleton _ _, ?_⟩
    intro a ha b hb
    have hb' : b = (name, m) := by simpa using hb
    subst hb'
    have := h.2 a (List.mem_of_mem_filter ha)
    simpa [hm] using this
  · intro p hp
    simp only [addMessage] at hp
    rcases List.mem_append.mp hp with h1 | h2
    · exact Nat.lt_succ_of_lt (h.2 p (List.mem_of_mem_filter h1))
    · have hp' : p = (name, m) := by simpa using h2
      subst hp'
      simp [hm]

theorem timesOk_handleCreate (s : ServerState) (rn uid pw : Option String)
    (h : timesOk s) : timesOk (handleCreate s rn uid pw).state := by
  unfold handleCreate
  dsimp only
  repeat' split
  all_goals exact h

theorem timesOk_handleJoin (s : ServerState) (rn pw : Option String)
    (h : timesOk s) : timesOk (handleJoin s rn pw).state := by
  unfold handleJoin
  dsimp only
  repeat' split
  all_goals exact h

theorem timesOk_handleMessage (s : ServerState)
    (rn uid un tx rt ty pid : Option String) (h : timesOk s) :
    timesOk (handleMessage s rn uid un tx rt ty pid).state := by
  unfold handleMessage
  dsimp only
  repeat' split
  any_goals exact h
  all_goals
    apply timesOk_addMessage s _ _ _ h
    rfl

theorem timesOk_handleDeleteMessage (s : ServerState) (rn mi uid : Option String)
    (h : timesOk s) : timesOk (handleDeleteMessage s rn mi uid).state := by
  unfold handleDeleteMessage
  dsimp only
  repeat' split
  any_goals exact h
  all_goals exact timesOk_filter s _ h

theorem timesOk_handleDeleteRoom (o : Oracles) (s : ServerState)
    (rn uid : Option String) (h : timesOk s) :
    timesOk (handleDeleteRoom o s rn uid).state := by
  unfold handleDeleteRoom
  dsimp only
  repeat' split
  any_goals exact h
  all_goals exact timesOk_filter s _ h

theorem timesOk_accountCascade (fails : String → Bool) :
    ∀ (names : List String) (s s' : ServerState) (calls : List DestroyCall),
    accountCascade fails s names = Except.ok (s', calls) → timesOk s → timesOk s'
  | [], s, s', calls, heq, h => by
    simp only [accountCascade] at heq
    cases heq
    exact h
  | n :: rest, s, s', calls, heq, h => by
    simp only [accountCascade, mediaCascade_spec] at heq
    cases hrec : accountCascade fails (recursiveDeleteRoom s n) rest with
    | error e =>
      rw [hrec] at heq
      cases heq
    | ok pr =>
      obtain ⟨s2, more⟩ := pr
      rw [hrec] at heq
      injection heq with h1
      injection h1 with h2 h3
      exact h2 ▸ timesOk_accountCascade fails rest _ s2 more hrec (timesOk_filter s _ h)

theorem timesOk_handleDeleteAccount (o : Oracles) (s : ServerState)
    (uid : Option String) (h : timesOk s) :
    timesOk (handleDeleteAccount o s uid).state := by
  unfold handleDeleteAccount
  dsimp only
  repeat' split
  any_goals exact h
  all_goals (rename_i x s2 more heq hcond; exact timesOk_accountCascade o.destroyFails _ _ _ _ heq h)

theorem timesOk_handle (o : Oracles) (s : ServerState) (e : Event)
    (h : timesOk s) : timesOk (handle o s e).state := by
  cases e with
  | create rn uid pw => exact timesOk_handleCreate s rn uid pw h
  | join rn pw => exact timesOk_handleJoin s rn pw h
  | message rn uid un tx rt ty pid => exact timesOk_handleMessage s rn uid un tx rt ty pid h
  | deleteMessage rn mi uid => exact timesOk_handleDeleteMessage s rn mi uid h
  | deleteRoom rn uid => exact timesOk_handleDeleteRoom o s rn uid h
  | deleteAccount uid => exact timesOk_handleDeleteAccount o s uid h

theorem timesOk_run (o : Oracles) :
    ∀ (tr : List Event) (s : ServerState), timesOk s → timesOk (run o s tr)
  | [], _, h => h
  | e :: rest, s, h => timesOk_run o rest _ (timesOk_handle o s e h)

theorem timesOk_initState : timesOk initState := by
  constructor
  · simp [initState]
  · intro p hp
    simp [initState] at hp

/-- In a state satisfying the clock invariant, each room's stored message
list is already in non-decreasing timestamp order. -/
theorem roomMsgs_sorted (s : ServerState) (h : timesOk s) (name : String) :
    List.Pairwise (fun a b : Message => a.timestamp ≤ b.timestamp) (roomMsgs s name) := by
  unfold roomMsgs
  rw [List.pairwise_map]
  have h1 : List.Pairwise (fun a b : String × Message => a.2.timestamp < b.2.timestamp)
      (s.msgs.filter fun p => p.1 == name) :=
    List.Pairwise.sublist (List.filter_sublist s.msgs) h.1
  exact h1.imp (fun hab => Nat.le_of_lt hab)

/-- Under the clock invariant, the orderBy-timestamp read returns the stored
per-room list unchanged (it is already in send order). -/
theorem join_sort_eq (s : ServerState) (h : timesOk s) (name : String) :
    List.insertionSort (fun a b : Message => a.timestamp ≤ b.timestamp) (roomMsgs s name)
      = roomMsgs s name :=
  List.Sorted.insertionSort_eq (roomMsgs_sorted s h name)

/-- Inversion of the join handler: the only way a join-success envelope is
sent is the success branch, which replies to the sender only, does not
change state, echoes the requested room name and carries the
timestamp-sorted message list of that room. -/
theorem handleJoin_sent_inv (s : ServerState) (rn pw name : Option String)
    (msgs : List Message)
    (h : (handleJoin s rn pw).sent = [Envelope.joinSuccess name msgs]) :
    name = rn ∧
    msgs = List.insertionSort (fun a b : Message => a.timestamp ≤ b.timestamp)
             (roomMsgs s (rn.getD "")) ∧
    handleJoin s rn pw =
      { state := s, sent := [Envelope.joinSuccess name msgs],
        broadcast := [], destroys := [], authDeletes := [] } := by
  by_cases h1 : falsy rn = true
  · exfalso
    rw [handleJoin] at h
    simp [h1, noEffects] at h
  · cases hg : getRoom s (rn.getD "") with
    | none =>
      exfalso
      rw [handleJoin] at h
      simp [h1, hg] at h
    | some room =>
      by_cases h2 : truthy room.password = true
      · cases hc : bcryptCompare pw (room.password.getD "") with
        | error e =>
          exfalso
          rw [handleJoin] at h
          simp [h1, hg, h2, hc, noEffects] at h
        | ok matched =>
          cases matched with
          | false =>
            exfalso
            rw [handleJoin] at h
            simp [h1, hg, h2, hc] at h
          | true =>
            rw [handleJoin] at h
            simp [h1, hg, h2, hc] at h
            obtain ⟨hn, hm⟩ := h
            subst hn
            subst hm
            refine ⟨rfl, rfl, ?_⟩
            rw [handleJoin]
            simp [h1, hg, h2, hc]
      · rw [handleJoin] at h
        simp [h1, hg, h2] at h
        obtain ⟨hn, hm⟩ := h
        subst hn
        subst hm
        refine ⟨rfl, rfl, ?_⟩
        rw [handleJoin]
        simp [h1, hg, h2]

/-- C6: for every successful join of an existing room (the reply being a
join-success envelope), the sender alone receives it (nothing is
broadcast), it carries the requested room name, and its message list is the
room's full stored list — the messages in send (storage) order — which is
in non-decreasing timestamp order. -/
theorem C6_join_success_ordered (o : Oracles) (tr : List Event)
    (rn pw name : Option String) (msgs : List Message)
    (h : (handleJoin (run o initState tr) rn pw).sent
          = [Envelope.joinSuccess name msgs]) :
    name = rn ∧
    handleJoin (run o initState tr) rn pw =
      { state := run o initState tr, sent := [Envelope.joinSuccess name msgs],
        broadcast := [], destroys := [], authDeletes := [] } ∧
    msgs = roomMsgs (run o initState tr) (rn.getD "") ∧
    List.Chain' (fun a b : Message => a.timestamp ≤ b.timestamp) msgs := by
  obtain ⟨hn, hm, hout⟩ := handleJoin_sent_inv (run o initState tr) rn pw name msgs h
  have hok : timesOk (run o initState tr) := timesOk_run o tr initState timesOk_initState
  have hsort := join_sort_eq (run o initState tr) hok (rn.getD "")
  refine ⟨hn, hout, ?_, ?_⟩
  · rw [hm, hsort]
  · rw [hm, hsort]
    exact (roomMsgs_sorted _ hok _).chain'

/-- Witness for C6 on the concrete trace trC6: joining lobby succeeds and
returns exactly the one stored message. -/
theorem C6_witness :
    (some "lobby" : Option String) = some "lobby" ∧
    handleJoin (run o0 initState trC6) (some "lobby") none =
      { state := run o0 initState trC6,
        sent := [Envelope.joinSuccess (some "lobby") [msgC6]],
        broadcast := [], destroys := [], authDeletes := [] } ∧
    [msgC6] = roomMsgs (run o0 initState trC6) "lobby" ∧
    List.Chain' (fun a b : Message => a.timestamp ≤ b.timestamp) [msgC6] :=
  C6_join_success_ordered o0 trC6 (some "lobby") none (some "lobby") [msgC6] (by decide)

/-- C1 (evaluation at the failing input): the room lobby is created with
createdBy = u1, yet the delete-room event from uid u1 — the stored creator
— is answered with the permission error and the room is left in place: the
handler compares the never-written owner field of the room document, which
reads as undefined. An event carrying no uid at all, by contrast, passes
the inverted guard and deletes the room. -/
theorem C1_creator_delete_rejected :
    getRoom (handleCreate initState (some "lobby") (some "u1") none).state "lobby"
      = some { password := none, createdBy := some "u1" } ∧
    handleDeleteRoom o0 (handleCreate initState (some "lobby") (some "u1") none).state
        (some "lobby") (some "u1") =
      { state := (handleCreate initState (some "lobby") (some "u1") none).state,
        sent := [Envelope.error false false "Only the creator can delete this room."],
        broadcast := [], destroys := [], authDeletes := [] } ∧
    (handleDeleteRoom o0 (handleCreate initState (some "lobby") (some "u1") none).state
        (some "lobby") none).state.rooms = [] := by decide

/-- C2 (evaluation at the failing input): when the avatar destroy for av1
fails, the catch block's log line references an unbound err and raises, so
the delete-account flow aborts after the destroy attempt: the profile and
the room created by u1 survive, no delete-success is sent and no room list
is re-broadcast. With the destroy succeeding (oracle o0), the very same
event completes the whole cascade — the failure is fatal, not logged-and-
continued. -/
theorem C2_avatar_failure_aborts_flow :
    handleDeleteAccount oFailAv sC2 (some "u1") =
      { state := sC2, sent := [], broadcast := [],
        destroys := [{ public_id := "av1", resource_type := "image" }],
        authDeletes := ["u1"] } ∧
    handleDeleteAccount o0 sC2 (some "u1") =
      { state := { rooms := [], msgs := [], users := [], now := 1 },
        sent := [Envelope.deleteSuccess],
        broadcast := [Envelope.roomsUpdated []],
        destroys := [{ public_id := "av1", resource_type := "image" }],
        authDeletes := ["u1"] } := by decide

/-- C3 counterexample: a create event with roomName present and uid missing
is not dropped silently — the guard tests both fields together — so the
room is written (with no creator field) and create-success is replied. -/
theorem C3_counterexample :
    (handleCreate initState (some "lobby") none none).sent
      = [Envelope.createSuccess (some "lobby")] ∧
    getRoom (handleCreate initState (some "lobby") none none).state "lobby"
      = some { password := none, createdBy := none } := by decide

/-- C3 amended: the create action fails silently when roomName is missing —
via the guard when uid is also missing, via the thrown doc() lookup
otherwise — but when roomName is present and uid is missing the guard does
not fire: the room record is written with no creator field and a
create-success reply is sent. -/
theorem C3_amended_behaviour (s : ServerState) (rn uid pw : Option String) :
    (falsy rn = true → handleCreate s rn uid pw = noEffects s) ∧
    (falsy rn = false → falsy uid = true → getRoom s (rn.getD "") = none →
      (handleCreate s rn uid pw).sent = [Envelope.createSuccess rn] ∧
      getRoom (handleCreate s rn uid pw).state (rn.getD "")
        = some { password := if falsy pw = true then none
                             else some (bhash (pw.getD "")),
                 createdBy := uid }) := by
  constructor
  · intro h1
    rw [handleCreate]
    by_cases h2 : falsy uid = true
    · simp [h1, h2]
    · simp [h1, h2]
  · intro h1 h2 hg
    rw [handleCreate]
    simp [h1, h2, hg]
    exact getRoom_putRoom s (rn.getD "") _

/-- Witness for C3's amended claim at a concrete input. -/
theorem C3_witness :
    (handleCreate initState (some "x") none none).sent
      = [Envelope.createSuccess (some "x")] ∧
    getRoom (handleCreate initState (some "x") none none).state "x"
      = some { password := none, createdBy := none } := by
  have h := (C3_amended_behaviour initState (some "x") none none).2 rfl rfl rfl
  simpa using h

/-- Truthiness of a present string is non-emptiness. -/
theorem truthy_some (x : String) : truthy (some x) = !x.isEmpty := rfl

/-- C5: the shared media cascade never raises, for any message list and any
pattern of destroy failures: it returns normally, attempting each message's
media deletion independently — one destroy call per message with a truthy
public_id, messages without one are skipped — and a failing destroy only
contributes a log line while the remaining iterations still run. -/
theorem C5_cascade_never_raises (fails : String → Bool) (msgs : List Message) :
    deleteMediaByMessages fails msgs =
      Except.ok (msgs.filterMap specMediaCall,
        (msgs.map (specMediaLogs fails)).flatten) :=
  mediaCascade_spec fails msgs

/-- C4: deleting a message that carries a media id invokes exactly one
destroy call for that id, with resource category video exactly when the
kind tag is audio and image for every other tag, absent included: the
delete-message path issues exactly that one call; the cascade shared by
delete-room and delete-account issues exactly one per-message call as per
specMediaCall; and specMediaCall maps a media-carrying message to the one
call with that category. -/
theorem C4_single_destroy_per_media (s : ServerState) (rn mi uid : Option String)
    (m : Message) (pid : String)
    (h1 : falsy rn = false) (h2 : falsy mi = false)
    (hm : getMessage s (rn.getD "") (mi.getD "") = some m)
    (hu : (m.userId == uid) = true)
    (hp : m.public_id = some pid) (hpe : pid.isEmpty = false) :
    (handleDeleteMessage s rn mi uid).destroys
      = [{ public_id := pid, resource_type := mediaResourceType m.type }] ∧
    (∀ (fails : String → Bool) (msgs2 : List Message) calls logs,
      deleteMediaByMessages fails msgs2 = Except.ok (calls, logs) →
      calls = msgs2.filterMap specMediaCall) ∧
    specMediaCall m
      = some { public_id := pid, resource_type := mediaResourceType m.type } ∧
    (m.type = some "audio" → mediaResourceType m.type = "video") ∧
    (m.type ≠ some "audio" → mediaResourceType m.type = "image") := by
  refine ⟨?_, ?_, ?_, ?_, ?_⟩
  · rw [handleDeleteMessage]
    simp [h1, h2, hm, hu, hp, truthy_some, hpe]
  · intro fails msgs2 calls logs heq
    rw [mediaCascade_spec] at heq
    injection heq with h3
    injection h3 with h4 h5
    exact h4.symm
  · rw [specMediaCall, hp]
    simp [hpe]
  · intro ht
    rw [mediaResourceType, ht]
    simp
  · intro ht
    rw [mediaResourceType]
    simp only [beq_iff_eq]
    simp [ht]

/-- Witness for C4 on msgC4 (audio, media id aud9): one destroy with the
video category. -/
theorem C4_witness :
    (handleDeleteMessage sC4 (some "lobby") (some "7") (some "u1")).destroys
      = [{ public_id := "aud9", resource_type := "video" }] ∧
    specMediaCall msgC4 = some { public_id := "aud9", resource_type := "video" } := by
  have h := C4_single_destroy_per_media sC4 (some "lobby") (some "7") (some "u1")
    msgC4 "aud9" rfl rfl (by decide) (by decide) rfl rfl
  exact ⟨h.1, h.2.2.1⟩

/-- C7: delete-message on an existing message deletes it and replies
message-deleted to the sender exactly when uid equals the author; any other
uid leaves the whole state unchanged and sends nothing at all. -/
theorem C7_delete_message_author_only (s : ServerState) (rn mi uid : Option String)
    (m : Message) (h1 : falsy rn = false) (h2 : falsy mi = false)
    (hm : getMessage s (rn.getD "") (mi.getD "") = some m) :
    ((m.userId == uid) = true →
      handleDeleteMessage s rn mi uid =
        { state := removeMessage s (rn.getD "") (mi.getD ""),
          sent := [Envelope.messageDeleted mi], broadcast := [],
          destroys :=
            if truthy m.public_id = true then
              [{ public_id := m.public_id.getD "",
                 resource_type := mediaResourceType m.type }]
            else [],
          authDeletes := [] } ∧
      getMessage (handleDeleteMessage s rn mi uid).state (rn.getD "") (mi.getD "")
        = none) ∧
    ((m.userId == uid) = false → handleDeleteMessage s rn mi uid = noEffects s) := by
  constructor
  · intro hu
    have hout : handleDeleteMessage s rn mi uid =
        { state := removeMessage s (rn.getD "") (mi.getD ""),
          sent := [Envelope.messageDeleted mi], broadcast := [],
          destroys :=
            if truthy m.public_id = true then
              [{ public_id := m.public_id.getD "",
                 resource_type := mediaResourceType m.type }]
            else [],
          authDeletes := [] } := by
      rw [handleDeleteMessage]
      simp [h1, h2, hm, hu]
    refine ⟨hout, ?_⟩
    rw [hout]
    exact getMessage_removeMessage s (rn.getD "") (mi.getD "")
  · intro hu
    rw [handleDeleteMessage]
    simp [h1, h2, hm, hu]

/-- Witness for C7: u1 deletes msgC4 (author path), u2 cannot (foreign
path). -/
theorem C7_witness :
    getMessage (handleDeleteMessage sC4 (some "lobby") (some "7") (some "u1")).state
      "lobby" "7" = none ∧
    handleDeleteMessage sC4 (some "lobby") (some "7") (some "u2") = noEffects sC4 := by
  have ha := (C7_delete_message_author_only sC4 (some "lobby") (some "7") (some "u1")
    msgC4 rfl rfl (by decide)).1 (by decide)
  have hb := (C7_delete_message_author_only sC4 (some "lobby") (some "7") (some "u2")
    msgC4 rfl rfl (by decide)).2 (by decide)
  exact ⟨ha.2, hb⟩

/-- C8: create on an existing room leaves the state — in particular that
room's creator and password — untouched and replies to the sender only
with the collision error carrying the create-scoped tag; that envelope is
distinct from every join-scoped error envelope. -/
theorem C8_create_collision (s : ServerState) (rn uid pw : Option String)
    (room : RoomDoc) (h1 : falsy rn = false)
    (hg : getRoom s (rn.getD "") = some room) :
    handleCreate s rn uid pw =
      { state := s, sent := [Envelope.error true false "Room already exist !"],
        broadcast := [], destroys := [], authDeletes := [] } ∧
    getRoom (handleCreate s rn uid pw).state (rn.getD "") = some room ∧
    (∀ m1 m2 : String, Envelope.error true false m1 ≠ Envelope.error false true m2) := by
  have hout : handleCreate s rn uid pw =
      { state := s, sent := [Envelope.error true false "Room already exist !"],
        broadcast := [], destroys := [], authDeletes := [] } := by
    rw [handleCreate]
    simp [h1, hg]
  refine ⟨hout, ?_, ?_⟩
  · rw [hout]
    exact hg
  · intro m1 m2 hcon
    simp at hcon

/-- Witness for C8: creating lobby again (it exists in sC2) changes nothing
and yields the create-tagged error. -/
theorem C8_witness :
    handleCreate sC2 (some "lobby") (some "u2") (some "pw") =
      { state := sC2, sent := [Envelope.error true false "Room already exist !"],
        broadcast := [], destroys := [], authDeletes := [] } ∧
    getRoom (handleCreate sC2 (some "lobby") (some "u2") (some "pw")).state "lobby"
      = some { password := none, createdBy := some "u1" } := by
  have h := C8_create_collision sC2 (some "lobby") (some "u2") (some "pw")
    { password := none, createdBy := some "u1" } rfl (by decide)
  exact ⟨h.1, h.2.1⟩

/-- C9: not-found handling is asymmetric — join on an absent room replies
to the sender with the join-scoped room-not-found error (state unchanged),
while message on an absent room is a complete no-op: no reply, no
broadcast, no state change. -/
theorem C9_not_found_asymmetry (s : ServerState)
    (rn pw uid un tx rt ty pid : Option String)
    (h1 : falsy rn = false) (hg : getRoom s (rn.getD "") = none) :
    handleJoin s rn pw =
      { state := s, sent := [Envelope.error false true "Room doesn't exist."],
        broadcast := [], destroys := [], authDeletes := [] } ∧
    handleMessage s rn uid un tx rt ty pid = noEffects s := by
  constructor
  · rw [handleJoin]
    simp [h1, hg]
  · rw [handleMessage]
    simp [h1, hg]

/-- Witness for C9 at room ghost, absent from the initial state. -/
theorem C9_witness :
    handleJoin initState (some "ghost") none =
      { state := initState,
        sent := [Envelope.error false true "Room doesn't exist."],
        broadcast := [], destroys := [], authDeletes := [] } ∧
    handleMessage initState (some "ghost") (some "u1") (some "alice") (some "hi")
      none none none = noEffects initState :=
  C9_not_found_asymmetry initState (some "ghost") none (some "u1") (some "alice")
    (some "hi") none none none rfl rfl

/-- C10: joining a password-protected room with the password field omitted
produces no reply at all — bcrypt.compare throws on the undefined value and
the outer catch swallows the event — whereas a wrong supplied password gets
the join-scoped incorrect-password error. -/
theorem C10_missing_password_silent (s : ServerState) (rn : Option String)
    (room : RoomDoc) (h1 : falsy rn = false)
    (hg : getRoom s (rn.getD "") = some room)
    (hp : truthy room.password = true) :
    handleJoin s rn none = noEffects s ∧
    (∀ p : String, (bhash p == room.password.getD "") = false →
      (handleJoin s rn (some p)).sent
        = [Envelope.error false true "Incorrect password."]) := by
  constructor
  · rw [handleJoin]
    simp [h1, hg, hp, bcryptCompare]
  · intro p hne
    rw [handleJoin]
    simp [h1, hg, hp, bcryptCompare, hne]

/-- Witness for C10 on the vault room: omitted password is silent, wrong
password gets the join-scoped error. -/
theorem C10_witness :
    handleJoin sC10 (some "vault") none = noEffects sC10 ∧
    (handleJoin sC10 (some "vault") (some "wrong")).sent
      = [Envelope.error false true "Incorrect password."] := by
  have h := C10_missing_password_silent sC10 (some "vault")
    { password := some (bhash "pw1"), createdBy := some "u1" } rfl (by decide) rfl
  exact ⟨h.1, h.2 "wrong" (by decide)⟩

/-- Witness instantiating C5 on a concrete list where the first destroy
fails: the second message's call is still issued and the failure is only
logged. -/
theorem C5_witness :
    deleteMediaByMessages (fun pid => pid == "aud9")
      [msgC4, { msgC4 with id := "8", type := none, public_id := some "img1" }] =
      Except.ok ([{ public_id := "aud9", resource_type := "video" },
                  { public_id := "img1", resource_type := "image" }],
        ["Failed to delete aud9"]) := by
  have h := C5_cascade_never_raises (fun pid => pid == "aud9")
    [msgC4, { msgC4 with id := "8", type := none, public_id := some "img1" }]
  simpa [msgC4, specMediaCall, specMediaLogs, mediaResourceType] using h
